import Mathlib

/-!
Verification of the `Calendar` component
(`src/framework/ui/calendar/calendar.component.tsx`).

The component file imports its view-mode types, date service and list
helpers from sibling modules that are not part of the sources at hand;
those are modelled from the specification (each such definition carries a
`Modelled from the spec:` doc comment).  Everything in the `CalendarComponent`
namespace is translated directly from `calendar.component.tsx`.
-/

/-- Modelled from the spec: the widget's generic date type `D`, instantiated
at the default native date representation (a calendar date with a year, a
0-based month and a 1-based day of month, as in a JS `Date`).  The date
service modules (`DateService`, `NativeDateService`) are not among the
sources. -/
structure CDate where
  year : Int
  month : Int
  day : Int
deriving DecidableEq, Repr

/-- `DateService.MONTHS_IN_YEAR` constant of the date service module. -/
def DateService.MONTHS_IN_YEAR : Nat := 12

/-- `DateService.DAYS_IN_WEEK` constant of the date service module. -/
def DateService.DAYS_IN_WEEK : Nat := 7

/-- Modelled from the spec: the `compare` capability of the date
abstraction.  Negative when the first date is earlier, zero when equal,
positive when later (lexicographic on year, month, day, mirroring the
timestamp difference of the native service). -/
def DateService.compareDates (a b : CDate) : Int :=
  if a.year ≠ b.year then a.year - b.year
  else if a.month ≠ b.month then a.month - b.month
  else a.day - b.day

/-- Modelled from the spec: year start of a date (January 1st of its year). -/
def DateService.getYearStart (d : CDate) : CDate := ⟨d.year, 0, 1⟩

/-- Modelled from the spec: year end of a date (December 31st of its year). -/
def DateService.getYearEnd (d : CDate) : CDate := ⟨d.year, 11, 31⟩

/-- Modelled from the spec: month start of a date (its first day). -/
def DateService.getMonthStart (d : CDate) : CDate := ⟨d.year, d.month, 1⟩

/-- Modelled from the spec: the `addMonth` capability.  Month overflow is
normalised into the year, with floor semantics as in the JS `Date`
constructor (`Int.ediv`/`Int.emod` by the positive constant 12 are floor
division and its remainder). -/
def DateService.addMonth (d : CDate) (n : Int) : CDate :=
  ⟨d.year + (d.month + n).ediv 12, (d.month + n).emod 12, d.day⟩

/-- Modelled from the spec: the `addYear` capability. -/
def DateService.addYear (d : CDate) (n : Int) : CDate :=
  ⟨d.year + n, d.month, d.day⟩

/-- Modelled from the spec: the `createDate` capability, building a date from
a year, a 0-based month and a day, normalising month overflow as the JS
`Date` constructor does. -/
def DateService.createDate (y m day : Int) : CDate :=
  ⟨y + m.ediv 12, m.emod 12, day⟩

/-- `getYear` capability of the date abstraction. -/
def DateService.getYear (d : CDate) : Int := d.year

/-- `getMonth` capability of the date abstraction (0-based). -/
def DateService.getMonth (d : CDate) : Int := d.month

/-- `getDate` capability of the date abstraction (day of month). -/
def DateService.getDate (d : CDate) : Int := d.day

/-- Modelled from the spec: inclusive bounds check of the date abstraction,
`lo ≤ date ≤ hi` under `compareDates`. -/
def DateService.isBetweenIncludingSafe (date lo hi : CDate) : Bool :=
  decide (0 ≤ DateService.compareDates date lo) &&
  decide (DateService.compareDates date hi ≤ 0)

/-- Modelled from the spec: `isSameDaySafe` of the date abstraction. -/
def DateService.isSameDaySafe (a b : CDate) : Bool :=
  a.year == b.year && a.month == b.month && a.day == b.day

/-- Modelled from the spec: `isSameMonthSafe` of the date abstraction. -/
def DateService.isSameMonthSafe (a b : CDate) : Bool :=
  a.year == b.year && a.month == b.month

/-- Modelled from the spec: `isSameYearSafe` of the date abstraction. -/
def DateService.isSameYearSafe (a b : CDate) : Bool :=
  a.year == b.year

/-- The three calendar view modes of `CalendarViewModes`
(`DATE` is the day view). -/
inductive CalendarViewMode where
  | DATE
  | MONTH
  | YEAR
deriving DecidableEq, Repr

/-- Modelled from the spec: the drill-down transition `pickNext`, applied on
selection: Year→Month→Day→Day (saturates at Day).  The view-mode classes
live in `type.ts`, not among the sources. -/
def CalendarViewMode.pickNext : CalendarViewMode → CalendarViewMode
  | .YEAR => .MONTH
  | .MONTH => .DATE
  | .DATE => .DATE

/-- Modelled from the spec: the cycle transition `navigationNext`, applied
when the header title is pressed: Day→Month→Year→Day (wraps). -/
def CalendarViewMode.navigationNext : CalendarViewMode → CalendarViewMode
  | .DATE => .MONTH
  | .MONTH => .YEAR
  | .YEAR => .DATE

/-- Modelled from the spec: the `range` helper of `service/helpers`,
producing `[producer 0, …, producer (n-1)]`. -/
def range (n : Nat) (producer : Nat → α) : List α :=
  (List.range n).map producer

/-- Modelled from the spec: the `batch` helper of `service/helpers`, the
generic "chunk a sequence into fixed-size rows" operation.  A zero row
width degenerates to a single row holding the whole sequence. -/
def batch (target : List α) (batchSize : Nat) : List (List α) :=
  if target.isEmpty then []
  else if batchSize = 0 then [target]
  else target.take batchSize :: batch (target.drop batchSize) batchSize
termination_by target.length
decreasing_by
  simp only [List.length_drop]
  rename_i h1 h2
  simp only [List.isEmpty_iff] at h1
  have : 0 < target.length := List.length_pos.mpr h1
  omega

/-- The component's configuration properties (`ComponentProps`), restricted
to the ones the verified logic reads.  `onSelect` records whether the
selection callback property is provided; `filter` is the optional filter
callback. -/
structure CalendarProps where
  min : Option CDate
  max : Option CDate
  date : Option CDate
  filter : Option (CDate → Bool)
  onSelect : Bool
  startView : CalendarViewMode

/-- The component's `State`: the current view mode and the visible
(anchor) date. -/
structure State where
  viewMode : CalendarViewMode
  visibleDate : CDate
deriving DecidableEq, Repr

/-- `CalendarComponent.MONTHS_IN_COLUMN`. -/
def CalendarComponent.MONTHS_IN_COLUMN : Nat := 4

/-- `CalendarComponent.YEARS_IN_COLUMN`. -/
def CalendarComponent.YEARS_IN_COLUMN : Nat := 4

/-- `CalendarComponent.YEARS_IN_VIEW`. -/
def CalendarComponent.YEARS_IN_VIEW : Nat := 12

/-- The `min` getter: `this.props.min || getYearStart(today())`.
`today` is passed explicitly as the date service's clock. -/
def CalendarComponent.min (props : CalendarProps) (today : CDate) : CDate :=
  props.min.getD (DateService.getYearStart today)

/-- The `max` getter: `this.props.max || getYearEnd(today())`. -/
def CalendarComponent.max (props : CalendarProps) (today : CDate) : CDate :=
  props.max.getD (DateService.getYearEnd today)

/-- The `date` getter: `this.props.date || today()`. -/
def CalendarComponent.date (props : CalendarProps) (today : CDate) : CDate :=
  props.date.getD today

/-- The initial `state`: view mode `startView`, visible date
`getMonthStart(today())`. -/
def CalendarComponent.initialState (props : CalendarProps) (today : CDate) : State :=
  ⟨props.startView, DateService.getMonthStart today⟩

/-- `onDateSelect`: fires `props.onSelect` with the pressed date when the
callback is provided; the state is not touched.  The returned list is the
sequence of dates emitted to the callback. -/
def CalendarComponent.onDateSelect (props : CalendarProps) (s : State) (d : CDate) :
    State × List CDate :=
  (s, if props.onSelect then [d] else [])

/-- `onMonthSelect`: keeps the visible date's year and day, takes the
selected date's month, and drills the view mode down via `pickNext`. -/
def CalendarComponent.onMonthSelect (s : State) (d : CDate) : State :=
  ⟨s.viewMode.pickNext,
   DateService.createDate (DateService.getYear s.visibleDate)
     (DateService.getMonth d) (DateService.getDate s.visibleDate)⟩

/-- `onYearSelect`: keeps the visible date's month and day, takes the
selected date's year, and drills the view mode down via `pickNext`. -/
def CalendarComponent.onYearSelect (s : State) (d : CDate) : State :=
  ⟨s.viewMode.pickNext,
   DateService.createDate (DateService.getYear d)
     (DateService.getMonth s.visibleDate) (DateService.getDate s.visibleDate)⟩

/-- `onTodayPress`: resets to the day view at today's date. -/
def CalendarComponent.onTodayPress (today : CDate) (_s : State) : State :=
  ⟨.DATE, today⟩

/-- `onPickerNavigationPress`: cycles the view mode via `navigationNext`;
the visible date is untouched. -/
def CalendarComponent.onPickerNavigationPress (s : State) : State :=
  ⟨s.viewMode.navigationNext, s.visibleDate⟩

/-- `onDatePickerPagerSelect`: moves the visible date to month `index` of
the visible date's year. -/
def CalendarComponent.onDatePickerPagerSelect (s : State) (index : Int) : State :=
  ⟨s.viewMode, DateService.addMonth (DateService.getYearStart s.visibleDate) index⟩

/-- `onYearPickerPagerSelect`: moves the visible date to the start of year
window `index`.  The source reads `this.props.min` directly (not the `min`
getter), so the raw `min` property is taken as an argument. -/
def CalendarComponent.onYearPickerPagerSelect (minProp : CDate) (s : State)
    (index : Int) : State :=
  ⟨s.viewMode,
   DateService.addYear (DateService.getYearStart minProp)
     (index * (CalendarComponent.YEARS_IN_VIEW : Int))⟩

/-- `isDateFitsFilter`: `this.props.filter && !this.props.filter(date) || false`
— true exactly when a filter is provided and rejects the date. -/
def CalendarComponent.isDateFitsFilter (props : CalendarProps) (d : CDate) : Bool :=
  match props.filter with
  | some f => !f d
  | none => false

/-- `isDateFitsBounds`: the date lies in `[min, max]` inclusively. -/
def CalendarComponent.isDateFitsBounds (props : CalendarProps) (today : CDate)
    (d : CDate) : Bool :=
  DateService.isBetweenIncludingSafe d (CalendarComponent.min props today)
    (CalendarComponent.max props today)

/-- `isDayDisabled`. -/
def CalendarComponent.isDayDisabled (props : CalendarProps) (today : CDate)
    (d : CDate) : Bool :=
  !CalendarComponent.isDateFitsBounds props today d ||
    CalendarComponent.isDateFitsFilter props d

/-- `isMonthDisabled`. -/
def CalendarComponent.isMonthDisabled (props : CalendarProps) (today : CDate)
    (d : CDate) : Bool :=
  !CalendarComponent.isDateFitsBounds props today d ||
    CalendarComponent.isDateFitsFilter props d

/-- `isYearDisabled`. -/
def CalendarComponent.isYearDisabled (props : CalendarProps) (today : CDate)
    (d : CDate) : Bool :=
  !CalendarComponent.isDateFitsBounds props today d ||
    CalendarComponent.isDateFitsFilter props d

/-- The active day-pager page index (`visibleDayPickerIndex` of
`renderDayPickerPagerElement` / `isDayPickerInViewPort`): the visible
date's month. -/
def CalendarComponent.visibleDayPickerIndex (s : State) : Int :=
  DateService.getMonth s.visibleDate

/-- `isDayPickerInViewPort`: the index is the active day-pager index or
adjacent to it (`Math.abs` is `Int.natAbs`). -/
def CalendarComponent.isDayPickerInViewPort (s : State) (index : Int) : Bool :=
  index == CalendarComponent.visibleDayPickerIndex s ||
    (index - CalendarComponent.visibleDayPickerIndex s).natAbs == 1

/-- The active year-pager page index (`visibleYearPickerIndex`):
`Math.floor((year(visibleDate) - year(min)) / YEARS_IN_VIEW)`; `Int.ediv`
by the positive constant 12 is exactly JS float division followed by
`Math.floor`. -/
def CalendarComponent.visibleYearPickerIndex (props : CalendarProps)
    (today : CDate) (s : State) : Int :=
  (DateService.getYear s.visibleDate -
    DateService.getYear (CalendarComponent.min props today)).ediv
    (CalendarComponent.YEARS_IN_VIEW : Int)

/-- `isYearPickerInViewPort`: the index is the active year-pager index or
adjacent to it. -/
def CalendarComponent.isYearPickerInViewPort (props : CalendarProps)
    (today : CDate) (s : State) (index : Int) : Bool :=
  index == CalendarComponent.visibleYearPickerIndex props today s ||
    (index - CalendarComponent.visibleYearPickerIndex props today s).natAbs == 1

/-- `createMonthPickerData`: the 12 months from the year start of `date`,
batched into rows of `MONTHS_IN_COLUMN`. -/
def CalendarComponent.createMonthPickerData (d : CDate) : List (List CDate) :=
  batch
    (range DateService.MONTHS_IN_YEAR fun index =>
      DateService.addMonth (DateService.getYearStart d) (index : Int))
    CalendarComponent.MONTHS_IN_COLUMN

/-- `createYearPickerData`: `YEARS_IN_VIEW` years from the year start of
`date`, batched into rows of `YEARS_IN_COLUMN`. -/
def CalendarComponent.createYearPickerData (d : CDate) : List (List CDate) :=
  batch
    (range CalendarComponent.YEARS_IN_VIEW fun index =>
      DateService.addYear (DateService.getYearStart d) (index : Int))
    CalendarComponent.YEARS_IN_COLUMN

/-- Modelled from the spec: a picker cell
(`calendarPickerCell.component`, not among the sources) fires its
selection handler only when the cell is not disabled; pressing a disabled
cell leaves the state alone. -/
def CalendarPicker.pressCell (disabled : Bool) (handler : State → State)
    (s : State) : State :=
  if disabled then s else handler s

/-- Modelled from the spec: clamping of a date by the `[lo, hi]` render
bounds under `compareDates`. -/
def clampDate (lo hi d : CDate) : CDate :=
  if DateService.compareDates d lo < 0 then lo
  else if DateService.compareDates hi d < 0 then hi
  else d

/-- The states reachable via the component's operations: initialisation,
day/month/year selection, header navigation press, pager page selection
and today press.  The year-pager constructor requires the raw `min`
property to be present, as the handler dereferences `this.props.min`. -/
inductive CalendarComponent.Reachable (props : CalendarProps) (today : CDate) :
    State → Prop
  | init :
      CalendarComponent.Reachable props today
        (CalendarComponent.initialState props today)
  | dateSelect (s : State) (d : CDate) :
      CalendarComponent.Reachable props today s →
      CalendarComponent.Reachable props today
        (CalendarComponent.onDateSelect props s d).1
  | monthSelect (s : State) (d : CDate) :
      CalendarComponent.Reachable props today s →
      CalendarComponent.Reachable props today (CalendarComponent.onMonthSelect s d)
  | yearSelect (s : State) (d : CDate) :
      CalendarComponent.Reachable props today s →
      CalendarComponent.Reachable props today (CalendarComponent.onYearSelect s d)
  | todayPress (s : State) :
      CalendarComponent.Reachable props today s →
      CalendarComponent.Reachable props today (CalendarComponent.onTodayPress today s)
  | navigationPress (s : State) :
      CalendarComponent.Reachable props today s →
      CalendarComponent.Reachable props today
        (CalendarComponent.onPickerNavigationPress s)
  | datePagerSelect (s : State) (index : Int) :
      CalendarComponent.Reachable props today s →
      CalendarComponent.Reachable props today
        (CalendarComponent.onDatePickerPagerSelect s index)
  | yearPagerSelect (s : State) (index : Int) (m : CDate) :
      props.min = some m →
      CalendarComponent.Reachable props today s →
      CalendarComponent.Reachable props today
        (CalendarComponent.onYearPickerPagerSelect m s index)

/-! ## Helper lemmas about the `batch` chunking helper -/

theorem batch_nil (w : Nat) : batch ([] : List α) w = [] := by
  rw [batch]; simp

theorem batch_cons (l : List α) (w : Nat) (hl : l ≠ []) (hw : w ≠ 0) :
    batch l w = l.take w :: batch (l.drop w) w := by
  rw [batch]
  simp [hl, hw]

theorem batch_flatten (l : List α) (w : Nat) (hw : 0 < w) :
    (batch l w).flatten = l := by
  induction l, w using batch.induct with
  | case1 t w h =>
    simp only [List.isEmpty_iff] at h
    simp [h, batch_nil]
  | case2 t h => omega
  | case3 t w h1 h2 ih =>
    simp only [List.isEmpty_iff] at h1
    rw [batch_cons t w h1 h2]
    rw [List.flatten_cons, ih hw, List.take_append_drop]

theorem batch_length_eq (l : List α) (w : Nat) (hw : 0 < w) :
    (batch l w).length = (l.length + w - 1) / w := by
  induction l, w using batch.induct with
  | case1 t w h =>
    simp only [List.isEmpty_iff] at h
    rw [h, batch_nil]
    have hz : (w - 1) / w = 0 := Nat.div_eq_of_lt (by omega)
    simp [hz]
  | case2 t h => omega
  | case3 t w h1 h2 ih =>
    simp only [List.isEmpty_iff] at h1
    have hn : 0 < t.length := List.length_pos.mpr h1
    rw [batch_cons t w h1 h2]
    simp only [List.length_cons, ih hw, List.length_drop]
    rcases Nat.lt_or_ge t.length w with hlt | hge
    · have hz : t.length - w = 0 := by omega
      have h0 : (0 + w - 1) / w = 0 := Nat.div_eq_of_lt (by omega)
      have h1' : (t.length + w - 1) / w = 1 :=
        Nat.div_eq_of_lt_le (by omega) (by omega)
      rw [hz, h0, h1']
    · have he : t.length - w + w - 1 = t.length - 1 := by omega
      have he2 : t.length + w - 1 = (t.length - 1) + w := by omega
      rw [he, he2, Nat.add_div_right _ hw]

theorem batch_mem_length_le (l : List α) (w : Nat) (hw : 0 < w) :
    ∀ r ∈ batch l w, r.length ≤ w := by
  induction l, w using batch.induct with
  | case1 t w h =>
    simp only [List.isEmpty_iff] at h
    simp [h, batch_nil]
  | case2 t h => omega
  | case3 t w h1 h2 ih =>
    simp only [List.isEmpty_iff] at h1
    rw [batch_cons t w h1 h2]
    intro r hr
    rcases List.mem_cons.mp hr with h | h
    · subst h
      rw [List.length_take]
      exact inf_le_left
    · exact ih hw r h

theorem batch_dropLast_length (l : List α) (w : Nat) (hw : 0 < w) :
    ∀ r ∈ (batch l w).dropLast, r.length = w := by
  induction l, w using batch.induct with
  | case1 t w h =>
    simp only [List.isEmpty_iff] at h
    simp [h, batch_nil]
  | case2 t h => omega
  | case3 t w h1 h2 ih =>
    simp only [List.isEmpty_iff] at h1
    rw [batch_cons t w h1 h2]
    by_cases hd : t.drop w = []
    · rw [hd, batch_nil]
      simp
    · have hbne : batch (t.drop w) w ≠ [] := by
        rw [batch_cons _ w hd h2]
        simp
      rw [List.dropLast_cons_of_ne_nil hbne]
      intro r hr
      rcases List.mem_cons.mp hr with h | h
      · subst h
        have hle : w ≤ t.length := by
          by_contra hcon
          exact hd (List.drop_eq_nil_of_le (by omega))
        rw [List.length_take]
        exact inf_eq_left.mpr hle
      · exact ih hw r h

/-! ## Claim theorems -/

/-- Claim C2: the drill-down transition `pickNext` (applied on selection)
maps Year to Month, Month to Day and Day to Day; drilling down from the
Year view twice reaches the Day view and any further drill-downs stay at
the Day view; and the selection handlers `onMonthSelect` / `onYearSelect`
advance the view mode exactly by `pickNext`. -/
theorem pickNext_drill_down :
    CalendarViewMode.pickNext .YEAR = .MONTH ∧
    CalendarViewMode.pickNext .MONTH = .DATE ∧
    CalendarViewMode.pickNext .DATE = .DATE ∧
    CalendarViewMode.pickNext (CalendarViewMode.pickNext .YEAR) = .DATE ∧
    (∀ n : Nat, CalendarViewMode.pickNext^[n + 2] .YEAR = .DATE) ∧
    (∀ (s : State) (d : CDate),
      (CalendarComponent.onMonthSelect s d).viewMode = s.viewMode.pickNext ∧
      (CalendarComponent.onYearSelect s d).viewMode = s.viewMode.pickNext) := by
  refine ⟨rfl, rfl, rfl, rfl, ?_, fun s d => ⟨rfl, rfl⟩⟩
  intro n
  induction n with
  | zero => rfl
  | succ n ih =>
    rw [show n + 1 + 2 = (n + 2) + 1 from rfl, Function.iterate_succ_apply', ih]
    rfl

/-- Claim C3: the cycle transition `navigationNext` (applied when the
header title is pressed) maps Day to Month, Month to Year and Year back to
Day, and the header-press handler `onPickerNavigationPress` changes only
the view mode, leaving the visible date unchanged. -/
theorem navigationNext_cycle :
    CalendarViewMode.navigationNext .DATE = .MONTH ∧
    CalendarViewMode.navigationNext .MONTH = .YEAR ∧
    CalendarViewMode.navigationNext .YEAR = .DATE ∧
    (∀ s : State,
      (CalendarComponent.onPickerNavigationPress s).viewMode
          = s.viewMode.navigationNext ∧
      (CalendarComponent.onPickerNavigationPress s).visibleDate
          = s.visibleDate) :=
  ⟨rfl, rfl, rfl, fun _ => ⟨rfl, rfl⟩⟩

/-- Claim C4: for every sequence of length `n` and row width `w > 0`,
`batch` yields `⌈n / w⌉ = (n + w - 1) / w` rows, every row but possibly
the last has length exactly `w` (and none exceeds `w`), and concatenating
the rows in order restores the original sequence. -/
theorem batch_grid_shape (l : List α) (w : Nat) (hw : 0 < w) :
    (batch l w).length = (l.length + w - 1) / w ∧
    (∀ r ∈ (batch l w).dropLast, r.length = w) ∧
    (∀ r ∈ batch l w, r.length ≤ w) ∧
    (batch l w).flatten = l :=
  ⟨batch_length_eq l w hw, batch_dropLast_length l w hw,
   batch_mem_length_le l w hw, batch_flatten l w hw⟩

/-- Concrete instance of `batch_grid_shape` at the list `[1, 2, 3, 4, 5]`
and width `2`. -/
theorem batch_grid_shape_witness :
    0 < 2 ∧
    ((batch ([1, 2, 3, 4, 5] : List Nat) 2).length
        = (([1, 2, 3, 4, 5] : List Nat).length + 2 - 1) / 2 ∧
     (∀ r ∈ (batch ([1, 2, 3, 4, 5] : List Nat) 2).dropLast, r.length = 2) ∧
     (∀ r ∈ batch ([1, 2, 3, 4, 5] : List Nat) 2, r.length ≤ 2) ∧
     (batch ([1, 2, 3, 4, 5] : List Nat) 2).flatten = [1, 2, 3, 4, 5]) :=
  ⟨by decide, batch_grid_shape [1, 2, 3, 4, 5] 2 (by decide)⟩

theorem compareDates_self (a : CDate) : DateService.compareDates a a = 0 := by
  unfold DateService.compareDates
  simp

theorem compareDates_swap (a b : CDate) :
    DateService.compareDates a b = -DateService.compareDates b a := by
  unfold DateService.compareDates
  split_ifs <;> omega

theorem clampDate_between (lo hi d : CDate)
    (h : DateService.compareDates lo hi ≤ 0) :
    DateService.isBetweenIncludingSafe (clampDate lo hi d) lo hi = true := by
  unfold clampDate
  split_ifs with h1 h2
  · simp [DateService.isBetweenIncludingSafe, compareDates_self, h]
  · have hswap : DateService.compareDates hi lo = -DateService.compareDates lo hi :=
      compareDates_swap hi lo
    simp [DateService.isBetweenIncludingSafe, compareDates_self]
    omega
  · have hswap : DateService.compareDates d hi = -DateService.compareDates hi d :=
      compareDates_swap d hi
    simp [DateService.isBetweenIncludingSafe]
    omega

/-- Claim C1: in every state reachable via the component's operations
(initialisation, selection, navigation press, pager page selection, today
press), the visible date, once clamped by the `min`/`max` render bounds,
lies within `[min, max]` (the bounds being an interval, `min ≤ max`). -/
theorem reachable_visibleDate_clamped_within_bounds
    (props : CalendarProps) (today : CDate) (s : State)
    (hreach : CalendarComponent.Reachable props today s)
    (hminmax : DateService.compareDates (CalendarComponent.min props today)
        (CalendarComponent.max props today) ≤ 0) :
    DateService.isBetweenIncludingSafe
      (clampDate (CalendarComponent.min props today)
        (CalendarComponent.max props today) s.visibleDate)
      (CalendarComponent.min props today)
      (CalendarComponent.max props today) = true :=
  clampDate_between _ _ _ hminmax

/-- Concrete instance of `reachable_visibleDate_clamped_within_bounds` at
the initial state of an unconfigured component. -/
theorem reachable_visibleDate_clamped_within_bounds_witness :
    (CalendarComponent.Reachable ⟨none, none, none, none, false, .DATE⟩
        ⟨2019, 5, 10⟩
        (CalendarComponent.initialState ⟨none, none, none, none, false, .DATE⟩
          ⟨2019, 5, 10⟩) ∧
      DateService.compareDates
        (CalendarComponent.min ⟨none, none, none, none, false, .DATE⟩ ⟨2019, 5, 10⟩)
        (CalendarComponent.max ⟨none, none, none, none, false, .DATE⟩ ⟨2019, 5, 10⟩)
        ≤ 0) ∧
    DateService.isBetweenIncludingSafe
      (clampDate
        (CalendarComponent.min ⟨none, none, none, none, false, .DATE⟩ ⟨2019, 5, 10⟩)
        (CalendarComponent.max ⟨none, none, none, none, false, .DATE⟩ ⟨2019, 5, 10⟩)
        (CalendarComponent.initialState ⟨none, none, none, none, false, .DATE⟩
          ⟨2019, 5, 10⟩).visibleDate)
      (CalendarComponent.min ⟨none, none, none, none, false, .DATE⟩ ⟨2019, 5, 10⟩)
      (CalendarComponent.max ⟨none, none, none, none, false, .DATE⟩ ⟨2019, 5, 10⟩)
      = true :=
  ⟨⟨CalendarComponent.Reachable.init, by decide⟩,
   reachable_visibleDate_clamped_within_bounds _ _ _
     CalendarComponent.Reachable.init (by decide)⟩

/-- Claim C6: the day-view pager's active page index is exactly the visible
date's (0-based) month; the year pager's active index is
`⌊(year(visibleDate) - year(min)) / 12⌋`; and for both pagers an index
counts as in viewport exactly when it differs from the active index by at
most 1. -/
theorem pager_active_index_and_viewport (props : CalendarProps) (today : CDate)
    (s : State) (index : Int) :
    CalendarComponent.visibleDayPickerIndex s = DateService.getMonth s.visibleDate ∧
    (CalendarComponent.isDayPickerInViewPort s index = true ↔
      (index - CalendarComponent.visibleDayPickerIndex s).natAbs ≤ 1) ∧
    CalendarComponent.visibleYearPickerIndex props today s =
      (DateService.getYear s.visibleDate -
        DateService.getYear (CalendarComponent.min props today)).ediv 12 ∧
    (CalendarComponent.isYearPickerInViewPort props today s index = true ↔
      (index - CalendarComponent.visibleYearPickerIndex props today s).natAbs ≤ 1) := by
  refine ⟨rfl, ?_, rfl, ?_⟩
  · unfold CalendarComponent.isDayPickerInViewPort
    simp only [Bool.or_eq_true, beq_iff_eq]
    omega
  · unfold CalendarComponent.isYearPickerInViewPort
    simp only [Bool.or_eq_true, beq_iff_eq]
    omega

theorem batch_mem_length_dvd (l : List α) (w : Nat) (hw : 0 < w)
    (hdvd : w ∣ l.length) : ∀ r ∈ batch l w, r.length = w := by
  induction l, w using batch.induct with
  | case1 t w h =>
    simp only [List.isEmpty_iff] at h
    simp [h, batch_nil]
  | case2 t h => omega
  | case3 t w h1 h2 ih =>
    simp only [List.isEmpty_iff] at h1
    have hn : 0 < t.length := List.length_pos.mpr h1
    have hle : w ≤ t.length := Nat.le_of_dvd hn hdvd
    rw [batch_cons t w h1 h2]
    intro r hr
    rcases List.mem_cons.mp hr with h | h
    · subst h
      rw [List.length_take]
      exact inf_eq_left.mpr hle
    · have hdvd' : w ∣ (t.drop w).length := by
        rw [List.length_drop]
        exact Nat.dvd_sub' hdvd dvd_rfl
      exact ih hw hdvd' r h

theorem addMonth_yearStart (d : CDate) (i : Nat) (h : i < 12) :
    DateService.addMonth (DateService.getYearStart d) (i : Int)
      = ⟨d.year, (i : Int), 1⟩ := by
  unfold DateService.addMonth DateService.getYearStart
  have h0 : (0 : Int) ≤ (i : Int) := Int.natCast_nonneg i
  have h12 : (i : Int) < 12 := by omega
  have hdiv : ((i : Int)).ediv 12 = 0 := Int.ediv_eq_zero_of_lt h0 h12
  have hmod : ((i : Int)).emod 12 = (i : Int) := Int.emod_eq_of_lt h0 h12
  simp only [Int.zero_add]
  rw [hdiv, hmod, Int.add_zero]

theorem addYear_yearStart (d : CDate) (i : Nat) :
    DateService.addYear (DateService.getYearStart d) (i : Int)
      = ⟨d.year + (i : Int), 0, 1⟩ := rfl

/-- Claim C5: the month picker grid flattens to the 12 sequential months
starting at the year start of the input date, in 3 rows of 4; the year
picker grid flattens to the 12 sequential years starting at its computed
start (the year start of the input date), in 3 rows of 4. -/
theorem monthPicker_yearPicker_grids (d : CDate) :
    (CalendarComponent.createMonthPickerData d).flatten
        = (List.range 12).map (fun (i : Nat) => (⟨d.year, (i : Int), 1⟩ : CDate)) ∧
    (CalendarComponent.createMonthPickerData d).length = 3 ∧
    (∀ r ∈ CalendarComponent.createMonthPickerData d, r.length = 4) ∧
    (CalendarComponent.createYearPickerData d).flatten
        = (List.range 12).map
            (fun (i : Nat) => (⟨d.year + (i : Int), 0, 1⟩ : CDate)) ∧
    (CalendarComponent.createYearPickerData d).length = 3 ∧
    (∀ r ∈ CalendarComponent.createYearPickerData d, r.length = 4) := by
  have hm : (range DateService.MONTHS_IN_YEAR fun index =>
        DateService.addMonth (DateService.getYearStart d) (index : Int))
      = (List.range 12).map (fun (i : Nat) => (⟨d.year, (i : Int), 1⟩ : CDate)) := by
    unfold range DateService.MONTHS_IN_YEAR
    exact List.map_congr_left fun i hi =>
      addMonth_yearStart d i (List.mem_range.mp hi)
  have hy : (range CalendarComponent.YEARS_IN_VIEW fun index =>
        DateService.addYear (DateService.getYearStart d) (index : Int))
      = (List.range 12).map
          (fun (i : Nat) => (⟨d.year + (i : Int), 0, 1⟩ : CDate)) := by
    unfold range CalendarComponent.YEARS_IN_VIEW
    exact List.map_congr_left fun i _ => addYear_yearStart d i
  have hmlen : ((List.range 12).map
      (fun (i : Nat) => (⟨d.year, (i : Int), 1⟩ : CDate))).length = 12 := by simp
  have hylen : ((List.range 12).map
      (fun (i : Nat) => (⟨d.year + (i : Int), 0, 1⟩ : CDate))).length = 12 := by
    simp
  unfold CalendarComponent.createMonthPickerData CalendarComponent.createYearPickerData
  unfold CalendarComponent.MONTHS_IN_COLUMN CalendarComponent.YEARS_IN_COLUMN
  rw [hm, hy]
  refine ⟨batch_flatten _ 4 (by norm_num), ?_, ?_,
          batch_flatten _ 4 (by norm_num), ?_, ?_⟩
  · rw [batch_length_eq _ 4 (by norm_num), hmlen]
  · exact batch_mem_length_dvd _ 4 (by norm_num) (by rw [hmlen]; norm_num)
  · rw [batch_length_eq _ 4 (by norm_num), hylen]
  · exact batch_mem_length_dvd _ 4 (by norm_num) (by rw [hylen]; norm_num)

/-- Claim C7: every date outside the `[min, max]` bounds is reported
disabled by `isDayDisabled`, `isMonthDisabled` and `isYearDisabled` (the
predicates are total, so no error is raised), and pressing such a disabled
cell leaves the component's state unchanged, whichever picker it sits in. -/
theorem outOfBounds_disabled_and_selection_inert
    (props : CalendarProps) (today d : CDate) (s : State)
    (hout : CalendarComponent.isDateFitsBounds props today d = false) :
    CalendarComponent.isDayDisabled props today d = true ∧
    CalendarComponent.isMonthDisabled props today d = true ∧
    CalendarComponent.isYearDisabled props today d = true ∧
    CalendarPicker.pressCell (CalendarComponent.isDayDisabled props today d)
      (fun st => (CalendarComponent.onDateSelect props st d).1) s = s ∧
    CalendarPicker.pressCell (CalendarComponent.isMonthDisabled props today d)
      (fun st => CalendarComponent.onMonthSelect st d) s = s ∧
    CalendarPicker.pressCell (CalendarComponent.isYearDisabled props today d)
      (fun st => CalendarComponent.onYearSelect st d) s = s := by
  have hday : CalendarComponent.isDayDisabled props today d = true := by
    simp [CalendarComponent.isDayDisabled, hout]
  have hmonth : CalendarComponent.isMonthDisabled props today d = true := by
    simp [CalendarComponent.isMonthDisabled, hout]
  have hyear : CalendarComponent.isYearDisabled props today d = true := by
    simp [CalendarComponent.isYearDisabled, hout]
  refine ⟨hday, hmonth, hyear, ?_, ?_, ?_⟩ <;>
    simp [CalendarPicker.pressCell, hday, hmonth, hyear]

/-- Concrete instance of `outOfBounds_disabled_and_selection_inert`: with no
bounds configured and today in 2019, the date `⟨2030, 0, 1⟩` is out of
bounds, disabled, and pressing it changes nothing. -/
theorem outOfBounds_disabled_and_selection_inert_witness :
    CalendarComponent.isDateFitsBounds ⟨none, none, none, none, false, .DATE⟩
      ⟨2019, 5, 10⟩ ⟨2030, 0, 1⟩ = false ∧
    (CalendarComponent.isDayDisabled ⟨none, none, none, none, false, .DATE⟩
        ⟨2019, 5, 10⟩ ⟨2030, 0, 1⟩ = true ∧
      CalendarComponent.isMonthDisabled ⟨none, none, none, none, false, .DATE⟩
        ⟨2019, 5, 10⟩ ⟨2030, 0, 1⟩ = true ∧
      CalendarComponent.isYearDisabled ⟨none, none, none, none, false, .DATE⟩
        ⟨2019, 5, 10⟩ ⟨2030, 0, 1⟩ = true ∧
      CalendarPicker.pressCell
        (CalendarComponent.isDayDisabled ⟨none, none, none, none, false, .DATE⟩
          ⟨2019, 5, 10⟩ ⟨2030, 0, 1⟩)
        (fun st =>
          (CalendarComponent.onDateSelect ⟨none, none, none, none, false, .DATE⟩
            st ⟨2030, 0, 1⟩).1)
        ⟨.DATE, ⟨2019, 5, 1⟩⟩ = ⟨.DATE, ⟨2019, 5, 1⟩⟩ ∧
      CalendarPicker.pressCell
        (CalendarComponent.isMonthDisabled ⟨none, none, none, none, false, .DATE⟩
          ⟨2019, 5, 10⟩ ⟨2030, 0, 1⟩)
        (fun st => CalendarComponent.onMonthSelect st ⟨2030, 0, 1⟩)
        ⟨.DATE, ⟨2019, 5, 1⟩⟩ = ⟨.DATE, ⟨2019, 5, 1⟩⟩ ∧
      CalendarPicker.pressCell
        (CalendarComponent.isYearDisabled ⟨none, none, none, none, false, .DATE⟩
          ⟨2019, 5, 10⟩ ⟨2030, 0, 1⟩)
        (fun st => CalendarComponent.onYearSelect st ⟨2030, 0, 1⟩)
        ⟨.DATE, ⟨2019, 5, 1⟩⟩ = ⟨.DATE, ⟨2019, 5, 1⟩⟩) :=
  ⟨by decide,
   outOfBounds_disabled_and_selection_inert ⟨none, none, none, none, false, .DATE⟩
     ⟨2019, 5, 10⟩ ⟨2030, 0, 1⟩ ⟨.DATE, ⟨2019, 5, 1⟩⟩ (by decide)⟩

/-- Claim C8: when the selection callback is provided, selecting a day cell
emits exactly the newly selected date to it and leaves the component's
state (view mode and visible date) unchanged. -/
theorem onDateSelect_emits_selected_date (props : CalendarProps) (s : State)
    (d : CDate) (hcb : props.onSelect = true) :
    CalendarComponent.onDateSelect props s d = (s, [d]) := by
  simp [CalendarComponent.onDateSelect, hcb]

/-- Concrete instance of `onDateSelect_emits_selected_date`. -/
theorem onDateSelect_emits_selected_date_witness :
    (⟨none, none, none, none, true, .DATE⟩ : CalendarProps).onSelect = true ∧
    CalendarComponent.onDateSelect ⟨none, none, none, none, true, .DATE⟩
        ⟨.DATE, ⟨2019, 5, 1⟩⟩ ⟨2019, 5, 10⟩
      = (⟨.DATE, ⟨2019, 5, 1⟩⟩, [⟨2019, 5, 10⟩]) :=
  ⟨rfl,
   onDateSelect_emits_selected_date ⟨none, none, none, none, true, .DATE⟩
     ⟨.DATE, ⟨2019, 5, 1⟩⟩ ⟨2019, 5, 10⟩ rfl⟩

/-- Claim C9: when the `min`, `max` and `date` properties are omitted, the
getters default to the year start of today, the year end of today and
today respectively, and a well-formed date (month in `[0, 11]`, day in
`[1, 31]`) then fits the bounds exactly when it lies in today's year. -/
theorem default_props_bounds (props : CalendarProps) (today d : CDate)
    (hmin : props.min = none) (hmax : props.max = none)
    (hdate : props.date = none)
    (hm0 : 0 ≤ d.month) (hm1 : d.month ≤ 11)
    (hd0 : 1 ≤ d.day) (hd1 : d.day ≤ 31) :
    CalendarComponent.min props today = DateService.getYearStart today ∧
    CalendarComponent.max props today = DateService.getYearEnd today ∧
    CalendarComponent.date props today = today ∧
    (CalendarComponent.isDateFitsBounds props today d = true ↔
      d.year = today.year) := by
  refine ⟨by simp [CalendarComponent.min, hmin],
    by simp [CalendarComponent.max, hmax],
    by simp [CalendarComponent.date, hdate], ?_⟩
  unfold CalendarComponent.isDateFitsBounds DateService.isBetweenIncludingSafe
  unfold CalendarComponent.min CalendarComponent.max
  rw [hmin, hmax]
  unfold DateService.getYearStart DateService.getYearEnd DateService.compareDates
  simp only [Option.getD_none, Bool.and_eq_true, decide_eq_true_eq]
  constructor
  · rintro ⟨h1, h2⟩
    split_ifs at h1 h2 <;> omega
  · intro hy
    refine ⟨?_, ?_⟩ <;> split_ifs <;> omega

/-- Concrete instance of `default_props_bounds`. -/
theorem default_props_bounds_witness :
    ((⟨none, none, none, none, false, .DATE⟩ : CalendarProps).min = none ∧
      (⟨none, none, none, none, false, .DATE⟩ : CalendarProps).max = none ∧
      (⟨none, none, none, none, false, .DATE⟩ : CalendarProps).date = none ∧
      (0 : Int) ≤ (⟨2019, 11, 31⟩ : CDate).month ∧
      (⟨2019, 11, 31⟩ : CDate).month ≤ 11 ∧
      (1 : Int) ≤ (⟨2019, 11, 31⟩ : CDate).day ∧
      (⟨2019, 11, 31⟩ : CDate).day ≤ 31) ∧
    (CalendarComponent.min ⟨none, none, none, none, false, .DATE⟩ ⟨2019, 5, 10⟩
        = DateService.getYearStart ⟨2019, 5, 10⟩ ∧
      CalendarComponent.max ⟨none, none, none, none, false, .DATE⟩ ⟨2019, 5, 10⟩
        = DateService.getYearEnd ⟨2019, 5, 10⟩ ∧
      CalendarComponent.date ⟨none, none, none, none, false, .DATE⟩ ⟨2019, 5, 10⟩
        = (⟨2019, 5, 10⟩ : CDate) ∧
      (CalendarComponent.isDateFitsBounds ⟨none, none, none, none, false, .DATE⟩
          ⟨2019, 5, 10⟩ ⟨2019, 11, 31⟩ = true ↔
        (⟨2019, 11, 31⟩ : CDate).year = (⟨2019, 5, 10⟩ : CDate).year)) :=
  ⟨⟨rfl, rfl, rfl, by decide, by decide, by decide, by decide⟩,
   default_props_bounds ⟨none, none, none, none, false, .DATE⟩ ⟨2019, 5, 10⟩
     ⟨2019, 11, 31⟩ rfl rfl rfl (by decide) (by decide) (by decide) (by decide)⟩

/-- Claim C10: a date inside the `[min, max]` bounds is disabled exactly
when a filter callback is provided and rejects it; with no filter
configured every in-bounds date is enabled. -/
theorem inBounds_disabled_iff_filter_rejects (props : CalendarProps)
    (today d : CDate)
    (hfit : CalendarComponent.isDateFitsBounds props today d = true) :
    (CalendarComponent.isDayDisabled props today d = true ↔
      ∃ f, props.filter = some f ∧ f d = false) ∧
    (props.filter = none →
      CalendarComponent.isDayDisabled props today d = false) := by
  have hbase : CalendarComponent.isDayDisabled props today d
      = CalendarComponent.isDateFitsFilter props d := by
    simp [CalendarComponent.isDayDisabled, hfit]
  constructor
  · rw [hbase]
    unfold CalendarComponent.isDateFitsFilter
    cases hf : props.filter with
    | none => simp
    | some g => simp
  · intro hnone
    rw [hbase]
    simp [CalendarComponent.isDateFitsFilter, hnone]

/-- Concrete instance of `inBounds_disabled_iff_filter_rejects` with a
filter that accepts only day 5. -/
theorem inBounds_disabled_iff_filter_rejects_witness :
    CalendarComponent.isDateFitsBounds
      ⟨none, none, none, some (fun x => x.day == 5), false, .DATE⟩
      ⟨2019, 5, 10⟩ ⟨2019, 3, 4⟩ = true ∧
    ((CalendarComponent.isDayDisabled
        ⟨none, none, none, some (fun x => x.day == 5), false, .DATE⟩
        ⟨2019, 5, 10⟩ ⟨2019, 3, 4⟩ = true ↔
      ∃ f, (⟨none, none, none, some (fun x => x.day == 5), false,
              .DATE⟩ : CalendarProps).filter = some f ∧
        f ⟨2019, 3, 4⟩ = false) ∧
     ((⟨none, none, none, some (fun x => x.day == 5), false,
          .DATE⟩ : CalendarProps).filter = none →
       CalendarComponent.isDayDisabled
         ⟨none, none, none, some (fun x => x.day == 5), false, .DATE⟩
         ⟨2019, 5, 10⟩ ⟨2019, 3, 4⟩ = false)) :=
  ⟨by decide,
   inBounds_disabled_iff_filter_rejects
     ⟨none, none, none, some (fun x => x.day == 5), false, .DATE⟩
     ⟨2019, 5, 10⟩ ⟨2019, 3, 4⟩ (by decide)⟩
